import Mathlib

/-!
Shallow embedding of the cache-invalidation convention of the
appsync-lambda-cache-invalidation repository.

The repository wires an AppSync GraphQL API to Lambda resolvers.  Mutation
handlers return their normal payload augmented with a sentinel field
`__evictFromApiCache` holding a batch of wire-encoded eviction instructions
(3-element tuples).  Two response templates — a VTL mapping template on the
`PickFruitVtlResolver` and a JS `response` function on the
`PickFruitJSResolver` (src/cdk/fruit-api.ts) — raise any error carried by the
result, forward each instruction to the platform primitive
`extensions.evictFromApiCache`, and strip the sentinel before the result is
returned.  A separate Lambda (`FruitFunction`) serves the cached
`Query.fruit` read path.

The embedding models the result object shapes these templates actually
branch on: the `error` field (absent/null vs an error object), the sentinel
field (absent, present with value null, or present with a batch — the only
values the convention produces), and the remaining payload fields, which the
templates never touch.  Eviction calls are recorded as an observable log.
-/

/-- A scalar value as carried in payload fields and in `keyArguments`
mappings (strings and numbers are the shapes this repository uses). -/
inductive Scalar where
  | str : String → Scalar
  | num : Int → Scalar
  deriving DecidableEq, Repr

/-- A value occurring inside a wire-encoded eviction tuple: the first two
positions are strings, the third is an object mapping cache-key variable
names to scalars. -/
inductive WireVal where
  | str : String → WireVal
  | obj : List (String × Scalar) → WireVal
  deriving DecidableEq, Repr

/-- The decoded unit of eviction work: operation type, field name, and the
key-arguments mapping. -/
structure EvictionInstruction where
  operationType : String
  fieldName : String
  keyArguments : List (String × Scalar)
  deriving DecidableEq, Repr

/-- Wire form of one instruction: the 3-element tuple
`[operationType, fieldName, keyArguments]` as built by the mutation
handlers in src/cdk/fruit-api.ts. -/
def encodeInstruction (i : EvictionInstruction) : List WireVal :=
  [WireVal.str i.operationType, WireVal.str i.fieldName, WireVal.obj i.keyArguments]

/-- Wire form of a batch: the ordered sequence of encoded tuples. -/
def encodeBatch (b : List EvictionInstruction) : List (List WireVal) :=
  b.map encodeInstruction

/-- Decoding one wire tuple by reading positions 0, 1 and 2, as the
templates do with `evict[0]`, `evict[1]`, `evict[2]`; fails on a tuple of
the wrong shape. -/
def decodeInstruction (t : List WireVal) : Option EvictionInstruction :=
  match t[0]?, t[1]?, t[2]? with
  | some (WireVal.str op), some (WireVal.str f), some (WireVal.obj k) =>
      some ⟨op, f, k⟩
  | _, _, _ => none

/-- Decoding a wire batch tuple by tuple, preserving order. -/
def decodeBatch (ts : List (List WireVal)) : Option (List EvictionInstruction) :=
  ts.mapM decodeInstruction

/-- The state of the sentinel field `__evictFromApiCache` on a result
object: absent, present with value null, or present with a wire-encoded
batch (the only values the convention produces). -/
inductive Sentinel where
  | absent : Sentinel
  | vnull : Sentinel
  | batch : List (List WireVal) → Sentinel
  deriving DecidableEq, Repr

/-- The error object a failed Lambda invocation leaves on `ctx.result`:
the templates read `.message` and `.type`. -/
structure GraphQLError where
  message : String
  errorType : String
  deriving DecidableEq, Repr

/-- The inbound result object a response template sees (`$ctx.result` /
`ctx.result`): an optional error, the sentinel field, and the remaining
payload fields, which the templates never touch. -/
structure ResultObj where
  error : Option GraphQLError
  evict : Sentinel
  fields : List (String × Scalar)
  deriving DecidableEq, Repr

/-- Whether a result object still carries the sentinel field
`__evictFromApiCache` (with any value, null included). -/
def ResultObj.hasSentinel (r : ResultObj) : Bool :=
  r.evict != Sentinel.absent

/-- One invocation of the platform eviction primitive
`extensions.evictFromApiCache` with its three positional arguments, each
read from a tuple position (out-of-range reads yield null/undefined). -/
structure EvictionCall where
  arg0 : Option WireVal
  arg1 : Option WireVal
  arg2 : Option WireVal
  deriving DecidableEq, Repr

/-- The eviction call a template issues for one wire tuple `evict`:
positional arguments `evict[0]`, `evict[1]`, `evict[2]`. -/
def evictCallOfTuple (t : List WireVal) : EvictionCall :=
  ⟨t[0]?, t[1]?, t[2]?⟩

/-- The eviction call corresponding to a decoded instruction: its three
components in positional order. -/
def callOfInstruction (i : EvictionInstruction) : EvictionCall :=
  ⟨some (WireVal.str i.operationType), some (WireVal.str i.fieldName),
    some (WireVal.obj i.keyArguments)⟩

/-- How a template run ends: `util.error` raised, or a result returned to
the platform. -/
inductive FwdResult where
  | raised : GraphQLError → FwdResult
  | returned : ResultObj → FwdResult
  deriving DecidableEq, Repr

/-- Observable outcome of one template run: the ordered log of eviction
calls issued, and how the run ended. -/
structure ForwardOutcome where
  calls : List EvictionCall
  result : FwdResult
  deriving DecidableEq, Repr

/-- The VTL response mapping template of `PickFruitVtlResolver`
(src/cdk/fruit-api.ts lines 164-177):

* if `$ctx.result.error` is non-null, `$util.error(message, type)` raises
  and evaluation stops;
* if `$ctx.result['__evictFromApiCache']` is non-null, a `#foreach` issues
  one `$extensions.evictFromApiCache($evict[0], $evict[1], $evict[2])`
  call per element, in order;
* `$ctx.result.remove('__evictFromApiCache')` then runs unconditionally
  and `$util.toJson($ctx.result)` returns the cleaned result. -/
def PickFruitVtlResolver.responseMappingTemplate (r : ResultObj) : ForwardOutcome :=
  match r.error with
  | some e => ⟨[], FwdResult.raised e⟩
  | none =>
    let calls := match r.evict with
      | Sentinel.batch ts => ts.map evictCallOfTuple
      | _ => []
    ⟨calls, FwdResult.returned { r with evict := Sentinel.absent }⟩

/-- The JS `response` function of `PickFruitJSResolver`
(src/cdk/fruit-api.ts lines 234-247):

* `if (ctx.result.error)` raises via `util.error(message, type)`;
* `if (ctx.result.__evictFromApiCache)` — a truthiness test, so a present
  but null sentinel skips the whole block — issues one
  `extensions.evictFromApiCache(evict[0], evict[1], evict[2])` call per
  element via `forEach`, then deletes the sentinel *inside* that block
  (an empty array is truthy, so an explicit empty batch is deleted; a
  null sentinel is not);
* `return ctx.result`. -/
def PickFruitJSResolver.response (r : ResultObj) : ForwardOutcome :=
  match r.error with
  | some e => ⟨[], FwdResult.raised e⟩
  | none =>
    match r.evict with
    | Sentinel.batch ts =>
        ⟨ts.map evictCallOfTuple, FwdResult.returned { r with evict := Sentinel.absent }⟩
    | _ => ⟨[], FwdResult.returned r⟩

/-- Whether a template run returned a result still carrying the sentinel
field (a raised error returns no result). -/
def returnedHasSentinel (f : FwdResult) : Bool :=
  match f with
  | FwdResult.raised _ => false
  | FwdResult.returned r => r.hasSentinel

/-- Re-running a template on the result of a previous run: a raised error
stops the pipeline, a returned result is fed back in and the call logs
concatenate. -/
def applyAgain (fwd : ResultObj → ForwardOutcome) (o : ForwardOutcome) : ForwardOutcome :=
  match o.result with
  | FwdResult.raised _ => o
  | FwdResult.returned r =>
      let o2 := fwd r
      ⟨o.calls ++ o2.calls, o2.result⟩

/-- Type name of the cached resolver declared by
`fruitDataSource.createResolver('FruitResolver', ...)`
(src/cdk/fruit-api.ts line 108). -/
def fruitResolverTypeName : String := "Query"

/-- Field name of the cached resolver (src/cdk/fruit-api.ts line 109). -/
def fruitResolverFieldName : String := "fruit"

/-- The `cachingKeys` the cached resolver declares when caching is on
(src/cdk/fruit-api.ts line 112). -/
def fruitResolverCachingKeys : List String := ["$context.arguments.bowlId"]

/-- The cache-key variable name corresponding to a declared caching-key
expression: the expression without its leading dollar sign (the platform
addresses cached entries by the bare context path). -/
def cacheKeyVariableOf (expr : String) : String := expr.drop 1

/-- The `PutItemCommand` a pick-fruit handler sends: partition key
`bowlId` plus the chosen `fruitType` and `quantity` attributes. -/
structure PutRequest where
  bowlId : Int
  fruitType : String
  quantity : Int
  deriving DecidableEq, Repr

/-- Body of the `PickFruitVtlFunction` Lambda handler
(src/cdk/fruit-api.ts lines 134-153) after its random draws: it writes
`{bowlId, fruitType, quantity}` to the table and returns the payload
`{type, quantity}` augmented with the sentinel
`__evictFromApiCache: [['Query', 'fruit',
{'context.arguments.bowlId': bowlId}]]`.  The two random draws
(`fruitType`, `quantity`) are passed in as arguments; the pair returned
is (write issued, result object). -/
def pickFruitVtlHandler (bowlId : Int) (fruitType : String) (quantity : Int) :
    PutRequest × ResultObj :=
  (⟨bowlId, fruitType, quantity⟩,
   { error := none
   , evict := Sentinel.batch
       [[WireVal.str "Query", WireVal.str "fruit",
         WireVal.obj [("context.arguments.bowlId", Scalar.num bowlId)]]]
   , fields := [("type", Scalar.str fruitType), ("quantity", Scalar.num quantity)] })

/-- Body of the `PickFruitJSFunction` Lambda handler
(src/cdk/fruit-api.ts lines 191-210); its inline code is identical to the
`PickFruitVtlFunction` handler's. -/
def pickFruitJSHandler (bowlId : Int) (fruitType : String) (quantity : Int) :
    PutRequest × ResultObj :=
  (⟨bowlId, fruitType, quantity⟩,
   { error := none
   , evict := Sentinel.batch
       [[WireVal.str "Query", WireVal.str "fruit",
         WireVal.obj [("context.arguments.bowlId", Scalar.num bowlId)]]]
   , fields := [("type", Scalar.str fruitType), ("quantity", Scalar.num quantity)] })

/-- A DynamoDB item as the reader Lambda sees it: the optional `.S` of
the `fruitType` attribute and the optional `.N` (a decimal numeric
string) of the `quantity` attribute. -/
structure DbItem where
  fruitTypeS : Option String
  quantityN : Option String
  deriving DecidableEq, Repr

/-- Outcome of the reader's `GetItemCommand`: the send throws, the item is
missing, or an item is found. -/
inductive GetItemOutcome where
  | failure : GetItemOutcome
  | missing : GetItemOutcome
  | found : DbItem → GetItemOutcome
  deriving DecidableEq, Repr

/-- The object the reader returns on success: `type` and `quantity`,
each nullable. -/
structure FruitReadResult where
  type : Option String
  quantity : Option Int
  deriving DecidableEq, Repr

/-- Accumulate the longest leading run of decimal digits, as JS `parseInt`
does, ignoring anything after the first non-digit. -/
def natOfLeadingDigits : List Char → Nat → Nat
  | c :: cs, acc =>
      if c.isDigit then natOfLeadingDigits cs (10 * acc + (c.toNat - 48)) else acc
  | [], acc => acc

/-- JS `parseInt` as applied by the reader to the decimal integer strings
DynamoDB stores in `N` attributes: an optional sign followed by the longest
digit prefix (the NaN case, a string with no leading digit, never arises on
`N` attributes and is not modelled separately). -/
def jsParseInt (s : String) : Int :=
  match s.data with
  | '-' :: cs => -(Int.ofNat (natOfLeadingDigits cs 0))
  | cs => Int.ofNat (natOfLeadingDigits cs 0)

/-- `result.Item.fruitType?.S || null`: null when the attribute or its
`.S` is missing, and also when the string is empty (JS falsy). -/
def jsTypeField (s : Option String) : Option String :=
  match s with
  | some v => if v = "" then none else some v
  | none => none

/-- `result.Item.quantity?.N ? parseInt(result.Item.quantity.N) : null`:
null when the attribute or its `.N` is missing or the string is empty
(JS falsy), the parsed integer otherwise. -/
def jsQuantityField (n : Option String) : Option Int :=
  match n with
  | some v => if v = "" then none else some (jsParseInt v)
  | none => none

/-- The `FruitFunction` Lambda handler serving `Query.fruit`
(src/cdk/fruit-api.ts lines 32-48): it issues a `GetItemCommand` for the
requested `bowlId` inside a try/catch; a thrown send or a missing item
yields `null`, a found item yields `{type, quantity}` with each field
derived from the corresponding attribute. -/
def FruitFunction.handler (get : GetItemOutcome) : Option FruitReadResult :=
  match get with
  | GetItemOutcome.failure => none
  | GetItemOutcome.missing => none
  | GetItemOutcome.found it =>
      some ⟨jsTypeField it.fruitTypeS, jsQuantityField it.quantityN⟩

/-- Reading positions 0, 1 and 2 of an encoded instruction recovers its
three components as the three positional call arguments. -/
theorem evictCallOfTuple_encode (i : EvictionInstruction) :
    evictCallOfTuple (encodeInstruction i) = callOfInstruction i := rfl

/-- Decoding inverts encoding on a single instruction. -/
theorem decodeInstruction_encode (i : EvictionInstruction) :
    decodeInstruction (encodeInstruction i) = some i := rfl

/-- C1: on a non-error result whose sentinel field holds a batch of
instructions, both the VTL response mapping template and the JS response
function issue exactly one eviction call per instruction, in batch order,
each call passing the instruction's operationType, fieldName and
keyArguments as the three positional arguments. -/
theorem C1_one_eviction_call_per_instruction (b : List EvictionInstruction)
    (fs : List (String × Scalar)) :
    (PickFruitVtlResolver.responseMappingTemplate
        ⟨none, Sentinel.batch (encodeBatch b), fs⟩).calls = b.map callOfInstruction ∧
    (PickFruitJSResolver.response
        ⟨none, Sentinel.batch (encodeBatch b), fs⟩).calls = b.map callOfInstruction := by
  constructor <;>
    simp [PickFruitVtlResolver.responseMappingTemplate, PickFruitJSResolver.response,
      encodeBatch, List.map_map, Function.comp, evictCallOfTuple_encode]

/-- C2 as stated is false: the JS response function removes the sentinel
only inside the truthiness branch, so a non-error result carrying the
sentinel with a null value is returned still carrying it. -/
theorem C2_counterexample_js_keeps_null_sentinel :
    returnedHasSentinel
      (PickFruitJSResolver.response
        ⟨none, Sentinel.vnull, [("type", Scalar.str "apple")]⟩).result = true := by decide

/-- C2 amended: on every non-error result the VTL template returns the
payload fields unchanged with the sentinel absent; the JS function does
the same when the sentinel is absent or holds a batch (an empty one
included), but when the sentinel is present with a null value the JS
function returns the result unchanged, the null sentinel still in place. -/
theorem C2_sentinel_stripped_fields_preserved (ev : Sentinel)
    (ts : List (List WireVal)) (fs : List (String × Scalar)) :
    (PickFruitVtlResolver.responseMappingTemplate ⟨none, ev, fs⟩).result
        = FwdResult.returned ⟨none, Sentinel.absent, fs⟩ ∧
    (PickFruitJSResolver.response ⟨none, Sentinel.absent, fs⟩).result
        = FwdResult.returned ⟨none, Sentinel.absent, fs⟩ ∧
    (PickFruitJSResolver.response ⟨none, Sentinel.batch ts, fs⟩).result
        = FwdResult.returned ⟨none, Sentinel.absent, fs⟩ ∧
    (PickFruitJSResolver.response ⟨none, Sentinel.vnull, fs⟩).result
        = FwdResult.returned ⟨none, Sentinel.vnull, fs⟩ := by
  refine ⟨?_, rfl, rfl, rfl⟩
  cases ev <;> rfl

/-- C3: on a result carrying an error, both templates raise that error
(its message and type) through the platform error path and issue zero
eviction calls, whatever the sentinel holds. -/
theorem C3_error_raised_zero_evictions (e : GraphQLError) (ev : Sentinel)
    (fs : List (String × Scalar)) :
    PickFruitVtlResolver.responseMappingTemplate ⟨some e, ev, fs⟩
        = ⟨[], FwdResult.raised e⟩ ∧
    PickFruitJSResolver.response ⟨some e, ev, fs⟩
        = ⟨[], FwdResult.raised e⟩ :=
  ⟨rfl, rfl⟩

/-- C4: a result with the sentinel absent and the same result with the
sentinel set to an explicit empty batch are treated identically by both
templates — zero eviction calls and equal outputs. -/
theorem C4_absent_equals_empty_batch (er : Option GraphQLError)
    (fs : List (String × Scalar)) :
    PickFruitVtlResolver.responseMappingTemplate ⟨er, Sentinel.absent, fs⟩
        = PickFruitVtlResolver.responseMappingTemplate ⟨er, Sentinel.batch [], fs⟩ ∧
    PickFruitJSResolver.response ⟨er, Sentinel.absent, fs⟩
        = PickFruitJSResolver.response ⟨er, Sentinel.batch [], fs⟩ ∧
    (PickFruitVtlResolver.responseMappingTemplate ⟨er, Sentinel.absent, fs⟩).calls = [] ∧
    (PickFruitJSResolver.response ⟨er, Sentinel.absent, fs⟩).calls = [] := by
  cases er <;> exact ⟨rfl, rfl, rfl, rfl⟩

/-- C5 as stated is false: on a non-error result whose sentinel is present
with a null value the two templates disagree — the VTL template removes
the sentinel, the JS function leaves it in place. -/
theorem C5_counterexample_null_sentinel_distinguishes :
    PickFruitVtlResolver.responseMappingTemplate ⟨none, Sentinel.vnull, []⟩
      ≠ PickFruitJSResolver.response ⟨none, Sentinel.vnull, []⟩ := by decide

/-- C5 amended: the two templates agree (same eviction calls in the same
order and equal outputs) on every inbound result whose sentinel field is
absent or holds a batch — that is, on everything except a sentinel present
with a null value. -/
theorem C5_templates_agree_off_null_sentinel (er : Option GraphQLError)
    (ts : List (List WireVal)) (fs : List (String × Scalar)) :
    PickFruitVtlResolver.responseMappingTemplate ⟨er, Sentinel.absent, fs⟩
        = PickFruitJSResolver.response ⟨er, Sentinel.absent, fs⟩ ∧
    PickFruitVtlResolver.responseMappingTemplate ⟨er, Sentinel.batch ts, fs⟩
        = PickFruitJSResolver.response ⟨er, Sentinel.batch ts, fs⟩ := by
  cases er <;> exact ⟨rfl, rfl⟩

/-- C6: for every successful pick-fruit invocation (both handler
variants), the emitted eviction instruction targets the declared type and
field of the cached resolver, and its keyArguments mapping uses exactly
the variable name obtained from the resolver's declared caching key by
dropping the leading dollar sign, mapped to the same bowlId used as the
write's partition key. -/
theorem C6_key_arguments_match_declared_caching_key (bowlId : Int)
    (ft : String) (q : Int) :
    fruitResolverCachingKeys.map cacheKeyVariableOf = ["context.arguments.bowlId"] ∧
    (pickFruitVtlHandler bowlId ft q).1.bowlId = bowlId ∧
    (pickFruitVtlHandler bowlId ft q).2.evict
      = Sentinel.batch [encodeInstruction
          ⟨fruitResolverTypeName, fruitResolverFieldName,
            [("context.arguments.bowlId", Scalar.num bowlId)]⟩] ∧
    (pickFruitJSHandler bowlId ft q).1.bowlId = bowlId ∧
    (pickFruitJSHandler bowlId ft q).2.evict
      = Sentinel.batch [encodeInstruction
          ⟨fruitResolverTypeName, fruitResolverFieldName,
            [("context.arguments.bowlId", Scalar.num bowlId)]⟩] :=
  ⟨by decide, rfl, rfl, rfl, rfl⟩

/-- C7 as stated is false: a result that carries an error and no sentinel
is not returned unchanged — the template raises the error instead. -/
theorem C7_counterexample_error_result_not_returned :
    PickFruitVtlResolver.responseMappingTemplate
        ⟨some ⟨"boom", "Err"⟩, Sentinel.absent, []⟩
      ≠ ⟨[], FwdResult.returned ⟨some ⟨"boom", "Err"⟩, Sentinel.absent, []⟩⟩ := by decide

/-- C7 amended: on every non-error result without the sentinel field both
templates issue zero eviction calls and return it unchanged, and feeding
any template output back through the same template changes nothing —
applying the Forwarder twice is equivalent to applying it once. -/
theorem C7_forwarder_idempotent (fs : List (String × Scalar)) (s : ResultObj) :
    PickFruitVtlResolver.responseMappingTemplate ⟨none, Sentinel.absent, fs⟩
        = ⟨[], FwdResult.returned ⟨none, Sentinel.absent, fs⟩⟩ ∧
    PickFruitJSResolver.response ⟨none, Sentinel.absent, fs⟩
        = ⟨[], FwdResult.returned ⟨none, Sentinel.absent, fs⟩⟩ ∧
    applyAgain PickFruitVtlResolver.responseMappingTemplate
        (PickFruitVtlResolver.responseMappingTemplate s)
      = PickFruitVtlResolver.responseMappingTemplate s ∧
    applyAgain PickFruitJSResolver.response (PickFruitJSResolver.response s)
      = PickFruitJSResolver.response s := by
  obtain ⟨er, ev, fs2⟩ := s
  refine ⟨rfl, rfl, ?_, ?_⟩ <;> cases er <;> cases ev <;>
    simp [applyAgain, PickFruitVtlResolver.responseMappingTemplate,
      PickFruitJSResolver.response]

/-- C8: encoding a batch to its wire tuple form and decoding it back by
reading positions 0, 1 and 2 of each tuple yields the same batch, order
and values preserved. -/
theorem C8_wire_roundtrip (b : List EvictionInstruction) :
    decodeBatch (encodeBatch b) = some b := by
  induction b with
  | nil => rfl
  | cons i rest ih =>
      simp only [encodeBatch, decodeBatch] at ih ⊢
      rw [List.map_cons, List.mapM_cons, decodeInstruction_encode, ih]
      rfl

/-- C9: the VTL template's sentinel removal is unconditional — on every
non-error result the returned object does not carry the sentinel, and in
particular a sentinel present with a null value skips the eviction loop
(zero calls) yet is still removed. -/
theorem C9_vtl_removal_unconditional (ev : Sentinel) (fs : List (String × Scalar)) :
    returnedHasSentinel
        (PickFruitVtlResolver.responseMappingTemplate ⟨none, ev, fs⟩).result = false ∧
    PickFruitVtlResolver.responseMappingTemplate ⟨none, Sentinel.vnull, fs⟩
      = ⟨[], FwdResult.returned ⟨none, Sentinel.absent, fs⟩⟩ := by
  constructor
  · cases ev <;> rfl
  · rfl

/-- C10: the Query.fruit reader never propagates a failure — a thrown read
or a missing item yields null, and a found item yields an object whose
type and quantity come from the stored attributes, each individually null
when its attribute is missing and equal to the stored value (the parsed
integer for quantity) when present and non-empty. -/
theorem C10_reader_never_propagates_failure (it : DbItem) (s n : String) :
    FruitFunction.handler GetItemOutcome.failure = none ∧
    FruitFunction.handler GetItemOutcome.missing = none ∧
    FruitFunction.handler (GetItemOutcome.found it)
      = some ⟨jsTypeField it.fruitTypeS, jsQuantityField it.quantityN⟩ ∧
    jsTypeField none = none ∧
    jsQuantityField none = none ∧
    (s ≠ "" → jsTypeField (some s) = some s) ∧
    (n ≠ "" → jsQuantityField (some n) = some (jsParseInt n)) := by
  refine ⟨rfl, rfl, rfl, rfl, rfl, ?_, ?_⟩ <;> intro h <;> simp [jsTypeField, jsQuantityField, h]

/-- Witness for C10 at a concrete stored item. -/
theorem C10_reader_witness :
    FruitFunction.handler (GetItemOutcome.found ⟨some "apple", some "5"⟩)
      = some ⟨jsTypeField (some "apple"), jsQuantityField (some "5")⟩ ∧
    jsTypeField (some "apple") = some "apple" ∧
    jsQuantityField (some "5") = some (jsParseInt "5") := by
  have h := C10_reader_never_propagates_failure ⟨some "apple", some "5"⟩ "apple" "5"
  exact ⟨h.2.2.1, h.2.2.2.2.2.1 (by decide), h.2.2.2.2.2.2 (by decide)⟩
